import Mathlib

/-!
Verification of the PriceDropAlert browser extension against its
natural-language specification.

The development shallowly embeds the JavaScript sources:

* the keyword-weighted product classifier (`classifyProduct` and its
  keyword tables);
* the background script's simulation path (`simulateProductInfo`,
  `simNewProduct`, `simulateUpdateExisting`), with every call to
  `Math.random()` modelled as an explicit oracle argument (the natural
  number `Math.floor(Math.random() * bound)` that the call produced);
* the `addProduct` message handler's response dispatch;
* the notification gating of `checkAllPrices` and `simulatePriceCheck`;
* the check-interval handling of `setupServerMonitoring` and of the
  popup's add-product click handler.

JavaScript numbers are modelled as `Int` (every arithmetic step the
embedded code performs on them is exact on integers), except in the
price-check notification functions where the `* 0.9` / `* 1.1`
computation calls for `Rat`; integer draws are `Nat`, and JavaScript's
`NaN`/absent values are explicit constructors.
-/

namespace PriceDropAlert

/-! ## Classifier (source: the classification module)

`text.includes(keyword)` is substring containment on the case-folded
text; it is embedded as list-infix containment on the character lists. -/

/-- Containment of the pattern `pat` as a contiguous run of `text`,
by structural recursion on `text` (so that it evaluates inside the
kernel): `pat` is a prefix of `text` or occurs in its tail. -/
def containsL (text pat : List Char) : Bool :=
  match text with
  | [] => pat.isPrefixOf []
  | _ :: rest => pat.isPrefixOf text || containsL rest pat

/-- JavaScript `text.includes(kw)`: `kw` occurs contiguously in `text`. -/
def includesStr (text kw : String) : Bool :=
  containsL text.toList kw.toList

/-- JavaScript `s.toLowerCase()` (the embedded strings are ASCII, where
`Char.toLower` agrees with it). -/
def toLowerStr (s : String) : String :=
  String.mk (s.toList.map Char.toLower)

/-- `const NEGATIVE_KEYWORD_PENALTY = -15`. -/
def NEGATIVE_KEYWORD_PENALTY : Int := -15

/-- `const CLASSIFICATION_THRESHOLD = 10`. -/
def CLASSIFICATION_THRESHOLD : Int := 10

/-- The `electronics` keyword table with its weights, in declaration order. -/
def electronicsKeywords : List (String × Int) :=
  [("mobile", 10), ("phone", 10), ("smartphone", 10), ("tv", 10), ("television", 10),
   ("laptop", 10), ("computer", 10), ("tablet", 10), ("ipad", 10), ("camera", 10),
   ("headphone", 8), ("earphone", 8), ("speaker", 8), ("bluetooth", 8), ("wireless", 8),
   ("soundbar", 8), ("projector", 8), ("microphone", 8), ("audio", 8),
   ("monitor", 7), ("printer", 7), ("keyboard", 7), ("mouse", 7), ("router", 7),
   ("modem", 7), ("webcam", 7), ("scanner", 7),
   ("processor", 6), ("cpu", 6), ("gpu", 6), ("ram", 6), ("ssd", 6), ("hdd", 6),
   ("motherboard", 6), ("graphics", 6), ("battery", 6), ("charger", 6),
   ("samsung", 3), ("apple", 3), ("sony", 3), ("lg", 3), ("dell", 4), ("hp", 4),
   ("lenovo", 4), ("asus", 4), ("acer", 4), ("xiaomi", 3), ("oneplus", 4)]

/-- The `electronics` negative-keyword list. -/
def electronicsNegativeKeywords : List String :=
  ["shirt", "dress", "pant", "clothing", "fashion", "apparel"]

/-- The `fashion` keyword table with its weights, in declaration order. -/
def fashionKeywords : List (String × Int) :=
  [("shirt", 10), ("tshirt", 10), ("t-shirt", 10), ("dress", 10), ("pant", 10),
   ("trouser", 10), ("jeans", 10), ("skirt", 10), ("top", 8), ("blouse", 10),
   ("saree", 10), ("kurta", 10), ("kurti", 10), ("lehenga", 10), ("dupatta", 9),
   ("salwar", 9), ("palazzo", 9), ("ethnic", 8),
   ("jacket", 9), ("coat", 9), ("sweater", 9), ("sweatshirt", 9), ("hoodie", 9),
   ("blazer", 9), ("shrug", 8),
   ("fashion", 7), ("clothing", 7), ("apparel", 7), ("wear", 6), ("outfit", 6),
   ("designer", 6), ("boutique", 6), ("trendy", 5), ("stylish", 5),
   ("cotton", 4), ("silk", 4), ("wool", 4), ("polyester", 4), ("linen", 4),
   ("denim", 4), ("leather", 4), ("fabric", 4)]

/-- The `fashion` negative-keyword list. -/
def fashionNegativeKeywords : List String :=
  ["electronics", "mobile", "laptop", "charger", "digital"]

/-- The `categories` object: name, keyword table, negative keywords,
in declaration order (`electronics` first, then `fashion`). -/
def categories : List (String × List (String × Int) × List String) :=
  [("electronics", electronicsKeywords, electronicsNegativeKeywords),
   ("fashion", fashionKeywords, fashionNegativeKeywords)]

/-- `const text = (url + ' ' + title).toLowerCase()`. -/
def textOf (url title : String) : String :=
  toLowerStr (url ++ " " ++ title)

/-- The per-category scoring loop of `classifyProduct`: add the weight of
every keyword contained in the text, then add `NEGATIVE_KEYWORD_PENALTY`
once per contained negative keyword. -/
def categoryScore (keywords : List (String × Int)) (negatives : List String)
    (text : String) : Int :=
  let positive := keywords.foldl
    (fun acc kw => if includesStr text kw.1 then acc + kw.2 else acc) 0
  negatives.foldl
    (fun acc kw => if includesStr text kw then acc + NEGATIVE_KEYWORD_PENALTY else acc)
    positive

/-- The `scores` map computed by `classifyProduct`, in category order. -/
def scoresOf (url title : String) : List (String × Int) :=
  categories.map (fun c => (c.1, categoryScore c.2.1 c.2.2 (textOf url title)))

/-- The maximum-finding loop of `classifyProduct`: `maxScore` starts at
`-Infinity`, so the first entry always wins, and later entries win only
with a strictly greater score (first declared wins ties). -/
def bestCategory (scores : List (String × Int)) : Option (String × Int) :=
  scores.foldl
    (fun acc entry =>
      match acc with
      | none => some entry
      | some best => if entry.2 > best.2 then some entry else acc)
    none

/-- The classifier's result record. -/
structure CategoryVerdict where
  category : String
  score : Int
  isConfident : Bool
deriving DecidableEq

/-- `classifyProduct(url, title)`: score every category, take the best,
and fall back to `other`/`0`/`false` below the threshold. -/
def classifyProduct (url : String) (title : String := "") : CategoryVerdict :=
  match bestCategory (scoresOf url title) with
  | some best =>
    if CLASSIFICATION_THRESHOLD ≤ best.2 then
      ⟨best.1, best.2, decide (CLASSIFICATION_THRESHOLD * 2 ≤ best.2)⟩
    else ⟨"other", 0, false⟩
  | none => ⟨"other", 0, false⟩

/-- The winning raw score of the maximum-finding loop (`0` for an empty
category table, which never occurs). -/
def maxScoreOf (url title : String) : Int :=
  match bestCategory (scoresOf url title) with
  | some best => best.2
  | none => 0

/-- `isElectronicProduct(url, title)`. -/
def isElectronicProduct (url : String) (title : String := "") : Bool :=
  (classifyProduct url title).category == "electronics"

/-- The spec's description of the score ("sum the weight of every keyword
whose substring occurs in the text, then subtract a fixed penalty 15 for
every negative keyword of that category found in the text"), stated
directly as a sum minus a scaled count, for comparison with
`categoryScore`. -/
def specCategoryScore (keywords : List (String × Int)) (negatives : List String)
    (text : String) : Int :=
  (((keywords.filter (fun kw => includesStr text kw.1)).map Prod.snd).sum)
    - 15 * ((negatives.filter (fun kw => includesStr text kw)).length : Int)

/-! ## Simulation path (source: the background script's `simulateProductInfo`)

Each `Math.floor(Math.random() * bound)` call is modelled as an explicit
`Nat` oracle argument (`r` for the `* 20000` draw of the price, `r1` for
the `* 5000` draw of the higher option, `r2` for the `* 3000` draw of the
lower option). -/

/-- Digit grouping for `Number(x).toLocaleString()`: walking the reversed
digit list, insert a comma after every third digit. -/
def groupRevDigits : List Char → Nat → List Char
  | [], _ => []
  | c :: cs, 0 => ',' :: c :: groupRevDigits cs 2
  | c :: cs, k + 1 => c :: groupRevDigits cs k

/-- `Number(n).toLocaleString()` on a natural number: decimal digits with
comma grouping. -/
def natLocaleString (n : Nat) : String :=
  String.mk ((groupRevDigits (toString n).toList.reverse 3).reverse)

/-- `Number(n).toLocaleString()` on an integer. -/
def intLocaleString (n : Int) : String :=
  if n < 0 then "-" ++ natLocaleString n.natAbs else natLocaleString n.natAbs

/-- The display text `` `Rs. ${Number(x).toLocaleString()}` `` (all the
values the simulation path formats are integral). -/
def fmtPrice (n : Int) : String :=
  "Rs. " ++ intLocaleString n

/-- A tracked product record as stored in `chrome.storage.local`.
`priceConfirmed` is `false` when the field is absent (JavaScript
`undefined` is falsy); an absent or empty `priceOptions` is the empty
list. -/
structure Product where
  url : String
  targetPrice : Int
  title : String
  currentPrice : Int
  checkInterval : Nat
  addedOn : String
  lastChecked : String
  priceConfirmed : Bool
  isSimulated : Bool
  priceOptions : List Int
  priceDisplayOptions : List String
deriving DecidableEq

/-- `const randomPrice = Math.floor(Math.random() * 20000) + 5000`, with
`r` the value of the `Math.floor(Math.random() * 20000)` draw. -/
def simRandomPrice (r : Nat) : Int :=
  (r : Int) + 5000

/-- The new-product branch of `simulateProductInfo`: the record pushed to
the front of `trackedProducts` for a URL not yet tracked.
`productTitle` is the title string the function derived from the URL,
`now` the `new Date().toISOString()` timestamp. -/
def simNewProduct (url productTitle : String) (targetPrice : Int)
    (checkInterval : Nat) (now : String) (r r1 r2 : Nat) : Product :=
  let randomPrice := simRandomPrice r
  let priceOption1 := randomPrice + (r1 : Int) + 1000
  let priceOption2 := randomPrice - (r2 : Int) - 500
  { url := url
    targetPrice := targetPrice
    title := productTitle
    currentPrice := randomPrice
    checkInterval := checkInterval
    addedOn := now
    lastChecked := now
    priceConfirmed := false
    isSimulated := true
    priceOptions := [randomPrice, priceOption1, priceOption2]
    priceDisplayOptions :=
      [fmtPrice randomPrice, fmtPrice priceOption1, fmtPrice priceOption2] }

/-- The existing-product branch of `simulateProductInfo`: update
`targetPrice`, `lastChecked` and `checkInterval` in place, and fill
`priceOptions`/`priceDisplayOptions` only when they are absent or empty. -/
def simulateUpdateExisting (p : Product) (targetPrice : Int)
    (checkInterval : Nat) (now : String) (r1 r2 : Nat) : Product :=
  let q := { p with targetPrice := targetPrice, lastChecked := now,
                    checkInterval := checkInterval }
  if q.priceOptions.isEmpty then
    let currentPrice := q.currentPrice
    let priceOption1 := currentPrice + (r1 : Int) + 1000
    let priceOption2 := currentPrice - (r2 : Int) - 500
    { q with priceOptions := [currentPrice, priceOption1, priceOption2],
             priceDisplayOptions :=
               [fmtPrice currentPrice, fmtPrice priceOption1, fmtPrice priceOption2] }
  else q

/-- The object passed to `sendResponse` by `addProduct` and
`simulateProductInfo`: either `success: true` with the echoed product
fields and flags, or `success: false` with an error message. -/
inductive AddResponse where
  | ok (title : String) (currentPrice : Int) (checkInterval : Nat)
       (isUpdate : Bool) (isSimulated : Bool)
  | fail (message : String)
deriving DecidableEq

/-- `success` field of the response. -/
def AddResponse.isSuccess : AddResponse → Bool
  | .ok _ _ _ _ _ => true
  | .fail _ => false

/-- `isSimulated` field of the response (`false` when absent). -/
def AddResponse.simulatedFlag : AddResponse → Bool
  | .ok _ _ _ _ s => s
  | .fail _ => false

/-- `products.findIndex(p => p.url === url)` followed by an in-place
update of that entry: replace the first record with the given URL. -/
def updateFirst (products : List Product) (url : String)
    (f : Product → Product) : List Product :=
  match products with
  | [] => []
  | p :: rest =>
    if p.url == url then f p :: rest else p :: updateFirst rest url f

/-- `simulateProductInfo(url, targetPrice, sendResponse, checkInterval)`:
returns the updated `trackedProducts` array and the response sent.  The
response of the existing-product branch echoes the stored record's
`title` and `currentPrice` (read after the in-place update); the
new-product branch responds with the generated title and random price.
Both branches respond `success: true` with `isSimulated: true`. -/
def simulateProductInfo (products : List Product) (url productTitle : String)
    (targetPrice : Int) (checkInterval : Nat) (now : String)
    (r r1 r2 : Nat) : List Product × AddResponse :=
  match products.find? (fun p => p.url == url) with
  | some p =>
    let updated := simulateUpdateExisting p targetPrice checkInterval now r1 r2
    (updateFirst products url
       (fun q => simulateUpdateExisting q targetPrice checkInterval now r1 r2),
     .ok updated.title updated.currentPrice checkInterval true true)
  | none =>
    let newProduct := simNewProduct url productTitle targetPrice checkInterval now r r1 r2
    (newProduct :: products,
     .ok productTitle (simRandomPrice r) checkInterval false true)

/-! ## `addProduct` response dispatch (source: the background script)

The outcome of the `fetch`/`response.json()` sequence against the
server's `/api/scrape` endpoint is modelled as an explicit argument: each
constructor is one of the `throw` sites of `addProduct`'s `try` block, or
a well-formed product payload. -/

/-- Outcome of the scrape request made by `addProduct`. -/
inductive ScrapeResult where
  | httpError (status : Nat) (statusText : String)
  | parseError
  | notObject
  | apiFailure (message : Option String)
  | missingData
  | ok (title : String) (price : Int) (priceOptions : List Int)
       (priceDisplayOptions : List String)
deriving DecidableEq

/-- Whether the scrape produced a well-formed payload. -/
def ScrapeResult.isOk : ScrapeResult → Bool
  | .ok _ _ _ _ => true
  | _ => false

/-- The `error.message` produced by each `throw` site of `addProduct`
(caught by its `catch`, which responds `success: false` with it).  A
present-but-empty `message` string from the server is falsy in
JavaScript, so it also selects the default text. -/
def scrapeErrorMessage : ScrapeResult → String
  | .httpError status statusText =>
      "Server returned " ++ toString status ++ ": " ++ statusText
  | .parseError => "Invalid response from server"
  | .notObject => "Unexpected response format from server"
  | .apiFailure message =>
      match message with
      | some m => if m = "" then "Failed to get product information" else m
      | none => "Failed to get product information"
  | .missingData => "Product information incomplete in server response"
  | .ok _ _ _ _ => ""

/-- `addProduct`'s response: when the server is unreachable it delegates
to `simulateProductInfo`; when the server is reachable it responds
`success: true` (echoing the user-selected or scraped title/price, with
`isUpdate` set when the URL was already tracked) on a well-formed scrape
payload, and its `catch` responds `success: false` with the thrown
message on every failed scrape. -/
def addProduct (serverAvailable : Bool) (scrape : ScrapeResult)
    (products : List Product) (url productTitle : String) (targetPrice : Int)
    (checkInterval : Nat) (selectedPrice : Option Int)
    (selectedTitle : Option String) (now : String) (r r1 r2 : Nat) :
    AddResponse :=
  if serverAvailable then
    match scrape with
    | .ok title price _ _ =>
      let responseTitle := selectedTitle.getD title
      let responsePrice := selectedPrice.getD price
      match products.find? (fun p => p.url == url) with
      | some _ => .ok responseTitle responsePrice checkInterval true false
      | none => .ok responseTitle responsePrice checkInterval false false
    | e => .fail (scrapeErrorMessage e)
  else
    (simulateProductInfo products url productTitle targetPrice checkInterval now r r1 r2).2

/-! ## Notification gating (source: `checkAllPrices` and
`simulatePriceCheck` in the background script) -/

/-- Which notifications one product check emits: a browser notification
and/or an attempted email notification. -/
structure NotifyOutcome where
  browser : Bool
  emailAttempted : Bool
deriving DecidableEq

/-- The notification decision of `checkAllPrices`' server branch for one
product: only when the fetched price is at or below target AND
`priceConfirmed` holds does it consider notifying; `forceNotify` is true
on the first notification or when the price dropped; the email is
attempted only when an address is configured. -/
def checkAllPricesNotify (currentPrice targetPrice previousPrice : Rat)
    (priceConfirmed hasLastNotified hasEmail : Bool) : NotifyOutcome :=
  if currentPrice ≤ targetPrice then
    if priceConfirmed then
      let forceNotify := !hasLastNotified || decide (currentPrice < previousPrice)
      if forceNotify then
        { browser := true, emailAttempted := hasEmail }
      else { browser := false, emailAttempted := false }
    else { browser := false, emailAttempted := false }
  else { browser := false, emailAttempted := false }

/-- `simulatePriceCheck` for one product: the simulated price is 10%
below target on one coin outcome and 10% above on the other; a browser
notification fires whenever the simulated price is at or below target AND
`priceConfirmed` holds, and the email is attempted additionally only with
an address configured and `forceNotify`.  Returns the simulated price and
the notification outcome. -/
def simulatePriceCheck (targetPrice previousPrice : Rat)
    (coin priceConfirmed hasLastNotified hasEmail : Bool) :
    Rat × NotifyOutcome :=
  let simulatedPrice :=
    if coin then targetPrice * (9 / 10 : Rat) else targetPrice * (11 / 10 : Rat)
  if simulatedPrice ≤ targetPrice then
    if priceConfirmed then
      let forceNotify := !hasLastNotified || decide (simulatedPrice < previousPrice)
      (simulatedPrice, { browser := true, emailAttempted := hasEmail && forceNotify })
    else (simulatedPrice, { browser := false, emailAttempted := false })
  else (simulatedPrice, { browser := false, emailAttempted := false })

/-! ## Check-interval handling (source: `setupServerMonitoring` in the
background script, and the popup's add-button click handler) -/

/-- A JavaScript number argument: `NaN`, or an integer value.  `NaN` and
`0` are falsy. -/
inductive JSNum where
  | nan
  | int (n : Int)
deriving DecidableEq

/-- `Math.max(60, parseInt(checkInterval || 86400, 10))`: the
`checkInterval` posted to the server's `/api/monitor` endpoint by
`setupServerMonitoring`.  A falsy argument (absent, `NaN` or `0`) is
replaced by `86400` before the clamp. -/
def serverInterval (checkInterval : Option JSNum) : Int :=
  let base : Int :=
    match checkInterval with
    | none => 86400
    | some .nan => 86400
    | some (.int n) => if n = 0 then 86400 else n
  max 60 base

/-- The popup's check-interval field after `trim` and `parseInt`: left
empty, non-numeric (`NaN`), or an integer. -/
inductive IntervalField where
  | empty
  | nan
  | int (n : Int)
deriving DecidableEq

/-- The popup add-button handler's interval logic: an empty field gets
the `86400` default; a field that parses to `NaN` or to a value below 60
is rejected with an error status; otherwise the entered value is used. -/
def popupInterval : IntervalField → Except String Int
  | .empty => .ok 86400
  | .nan => .error "Check interval must be at least 60 seconds"
  | .int n =>
    if n < 60 then .error "Check interval must be at least 60 seconds"
    else .ok n

/-! ## Helper lemmas -/

theorem containsL_eq_true_iff (pat : List Char) :
    ∀ text : List Char, containsL text pat = true ↔ pat <:+: text := by
  intro text
  induction text with
  | nil => simp [containsL]
  | cons c rest ih =>
    simp [containsL, ih, List.infix_cons_iff]

theorem foldl_if_add_eq_sum (p : String × Int → Bool) :
    ∀ (l : List (String × Int)) (s : Int),
      l.foldl (fun acc kw => if p kw then acc + kw.2 else acc) s
        = s + ((l.filter p).map Prod.snd).sum := by
  intro l
  induction l with
  | nil => intro s; simp
  | cons hd tl ih =>
    intro s
    by_cases h : p hd <;>
      simp [List.filter_cons, h, ih, add_assoc]

theorem foldl_if_addc_eq_count (p : String → Bool) (c : Int) :
    ∀ (l : List String) (s : Int),
      l.foldl (fun acc kw => if p kw then acc + c else acc) s
        = s + c * ((l.filter p).length : Int) := by
  intro l
  induction l with
  | nil => intro s; simp
  | cons hd tl ih =>
    intro s
    by_cases h : p hd <;>
      simp only [List.foldl_cons, List.filter_cons, h, if_true, if_false, ih,
        List.length_cons] <;>
      push_cast <;> ring

theorem categoryScore_eq_specCategoryScore
    (keywords : List (String × Int)) (negatives : List String) (text : String) :
    categoryScore keywords negatives text = specCategoryScore keywords negatives text := by
  unfold categoryScore specCategoryScore
  rw [foldl_if_add_eq_sum, foldl_if_addc_eq_count]
  unfold NEGATIVE_KEYWORD_PENALTY
  ring

/-! ## Claims about the classifier -/

/-- C6: for every url and title, `classifyProduct` computes each
category's score as the sum of the weights of every keyword of that
category occurring as a substring of the lowercased concatenation of url
and title, minus a fixed penalty of 15 per occurring negative keyword of
that category; the occurrence test is substring containment. -/
theorem classifier_score_formula :
    (∀ url title : String,
      scoresOf url title
        = categories.map
            (fun c => (c.1, specCategoryScore c.2.1 c.2.2 (textOf url title)))) ∧
    (∀ text kw : String, includesStr text kw = true ↔ kw.toList <:+: text.toList) := by
  constructor
  · intro url title
    simp [scoresOf, categoryScore_eq_specCategoryScore]
  · intro text kw
    exact containsL_eq_true_iff _ _

/-- C4: whenever the maximum per-category score is strictly below the
threshold 10, `classifyProduct` returns exactly
`category: other, score: 0, isConfident: false`; in particular the text
"samsung" (weight 3 only) classifies as `other`. -/
theorem classifier_below_threshold_other :
    (∀ url title : String, maxScoreOf url title < 10 →
      classifyProduct url title = ⟨"other", 0, false⟩) ∧
    classifyProduct "samsung" "" = ⟨"other", 0, false⟩ := by
  refine ⟨?_, by decide⟩
  intro url title h
  unfold classifyProduct
  unfold maxScoreOf at h
  cases hb : bestCategory (scoresOf url title) with
  | none => rfl
  | some best =>
    rw [hb] at h
    dsimp only at h ⊢
    have hlt : ¬ (CLASSIFICATION_THRESHOLD ≤ best.2) := by
      unfold CLASSIFICATION_THRESHOLD
      omega
    rw [if_neg hlt]

/-- C4 witness: the hypothesis holds at url "samsung", title "". -/
theorem classifier_below_threshold_other_witness :
    maxScoreOf "samsung" "" < 10 ∧
      classifyProduct "samsung" "" = ⟨"other", 0, false⟩ :=
  ⟨by decide, classifier_below_threshold_other.1 "samsung" "" (by decide)⟩

/-- C5: whenever `classifyProduct` returns a category other than
`other`, `isConfident` is true exactly when the winning score is at
least `2 * CLASSIFICATION_THRESHOLD = 20`; the text "laptop dell"
scores 14 for electronics and is not confident. -/
theorem classifier_confidence_iff_double_threshold :
    (∀ url title : String,
      (classifyProduct url title).category ≠ "other" →
        ((classifyProduct url title).isConfident = true ↔
          20 ≤ (classifyProduct url title).score)) ∧
    classifyProduct "laptop dell" "" = ⟨"electronics", 14, false⟩ := by
  refine ⟨?_, by decide⟩
  intro url title h
  unfold classifyProduct at h ⊢
  cases hb : bestCategory (scoresOf url title) with
  | none =>
    rw [hb] at h
    exact absurd rfl h
  | some best =>
    rw [hb] at h
    dsimp only at h ⊢
    by_cases ht : CLASSIFICATION_THRESHOLD ≤ best.2
    · rw [if_pos ht] at h ⊢
      show decide (CLASSIFICATION_THRESHOLD * 2 ≤ best.2) = true ↔ 20 ≤ best.2
      rw [decide_eq_true_iff]
      unfold CLASSIFICATION_THRESHOLD
      constructor <;> (intro hx; omega)
    · rw [if_neg ht] at h
      exact absurd rfl h

/-- C5 witness: the hypothesis holds at url "laptop dell", title "". -/
theorem classifier_confidence_iff_double_threshold_witness :
    (classifyProduct "laptop dell" "").category ≠ "other" ∧
      ((classifyProduct "laptop dell" "").isConfident = true ↔
        20 ≤ (classifyProduct "laptop dell" "").score) :=
  ⟨by decide,
   classifier_confidence_iff_double_threshold.1 "laptop dell" "" (by decide)⟩

/-! ## Claims about the simulation path -/

/-- C1 counterexample: on the same URL (and same title, target, interval
and timestamp), two invocations of the simulated-price path whose fresh
`Math.random()` draws differ produce different simulated prices — the
price is not a stable function of the URL. -/
theorem simulated_price_not_stable_counterexample :
    (simNewProduct "https://www.amazon.in/dp/B0TESTURL1" "Amazon Product (B0TESTURL1)"
        15000 86400 "2026-01-01T00:00:00.000Z" 0 0 0).currentPrice
      ≠ (simNewProduct "https://www.amazon.in/dp/B0TESTURL1" "Amazon Product (B0TESTURL1)"
          15000 86400 "2026-01-01T00:00:00.000Z" 1 0 0).currentPrice := by
  decide

/-- C1 amended: the simulated price of `simulateProductInfo`'s
new-product branch is `5000 +` the call's fresh `Math.random()` draw: it
is determined by that draw alone (two calls agreeing on the draw agree on
the price, whatever their URLs), and two calls on the same URL with
different draws differ. -/
theorem simulated_price_function_of_draw :
    ∀ (url₁ url₂ title₁ title₂ : String) (tp₁ tp₂ : Int) (ci₁ ci₂ : Nat)
      (now₁ now₂ : String) (r r' r1 r1' r2 r2' : Nat),
      ((simNewProduct url₁ title₁ tp₁ ci₁ now₁ r r1 r2).currentPrice
          = (simNewProduct url₂ title₂ tp₂ ci₂ now₂ r r1' r2').currentPrice) ∧
        ((simNewProduct url₁ title₁ tp₁ ci₁ now₁ r r1 r2).currentPrice
          = simRandomPrice r) ∧
        ((simNewProduct url₁ title₁ tp₁ ci₁ now₁ r r1 r2).currentPrice
            = (simNewProduct url₁ title₁ tp₁ ci₁ now₁ r' r1 r2).currentPrice
          ↔ r = r') := by
  intro url₁ url₂ title₁ title₂ tp₁ tp₂ ci₁ ci₂ now₁ now₂ r r' r1 r1' r2 r2'
  refine ⟨rfl, rfl, ?_⟩
  show simRandomPrice r = simRandomPrice r' ↔ r = r'
  unfold simRandomPrice
  omega

/-- C7 counterexample: a URL whose keywords place it in the claim's
"mobile phones" category (claimed range 15,000–80,000) can receive the
simulated price 5,000, outside that range. -/
theorem simulated_price_range_counterexample :
    (simNewProduct "https://www.flipkart.com/samsung-mobile-phone/p/itm123"
        "Samsung Mobile Phone" 20000 86400 "2026-01-01T00:00:00.000Z" 0 0 0).currentPrice
      = 5000 ∧
    ¬ (15000 ≤ (simNewProduct "https://www.flipkart.com/samsung-mobile-phone/p/itm123"
        "Samsung Mobile Phone" 20000 86400 "2026-01-01T00:00:00.000Z" 0 0 0).currentPrice) := by
  constructor
  · decide
  · decide

/-- C7 amended: the simulated price lies in the single fixed range
5,000–24,999 for every URL — the code never selects a category-specific
range. -/
theorem simulated_price_single_range :
    ∀ (url title : String) (tp : Int) (ci : Nat) (now : String) (r r1 r2 : Nat),
      r < 20000 →
        5000 ≤ (simNewProduct url title tp ci now r r1 r2).currentPrice ∧
          (simNewProduct url title tp ci now r r1 r2).currentPrice ≤ 24999 := by
  intro url title tp ci now r r1 r2 hr
  show 5000 ≤ simRandomPrice r ∧ simRandomPrice r ≤ 24999
  unfold simRandomPrice
  omega

/-- C7 witness: the range bounds hold at the draw 19999. -/
theorem simulated_price_single_range_witness :
    (19999 : Nat) < 20000 ∧
      (5000 ≤ (simNewProduct "https://example.com/a" "Product from Example"
          100 86400 "t" 19999 0 0).currentPrice ∧
        (simNewProduct "https://example.com/a" "Product from Example"
          100 86400 "t" 19999 0 0).currentPrice ≤ 24999) :=
  ⟨by decide,
   simulated_price_single_range "https://example.com/a" "Product from Example"
     100 86400 "t" 19999 0 0 (by decide)⟩

/-- C3 counterexample: the simulated-price path produces a record whose
`priceOptions` has 3 entries, not at most 2. -/
theorem price_options_at_most_two_counterexample :
    ¬ ((simNewProduct "https://example.com/item" "Product from Example"
        1000 86400 "2026-01-01T00:00:00.000Z" 0 0 0).priceOptions.length ≤ 2) := by
  decide

/-- C3 amended: every record produced by the simulated-price path carries
exactly 3 price candidates — the chosen price first, then a higher
(`+ r1 + 1000`) and a lower (`- r2 - 500`) variant — with
`priceDisplayOptions` their formatted texts in matching positions; the
same holds for the options filled into an existing record whose
`priceOptions` were empty. -/
theorem simulated_price_options_three :
    ∀ (url title : String) (tp : Int) (ci : Nat) (now : String) (r r1 r2 : Nat),
      ((simNewProduct url title tp ci now r r1 r2).priceOptions
          = [simRandomPrice r, simRandomPrice r + (r1 : Int) + 1000,
             simRandomPrice r - (r2 : Int) - 500]) ∧
        ((simNewProduct url title tp ci now r r1 r2).priceDisplayOptions
          = (simNewProduct url title tp ci now r r1 r2).priceOptions.map fmtPrice) ∧
        ((simNewProduct url title tp ci now r r1 r2).priceOptions.length = 3) ∧
        (∀ p : Product, p.priceOptions = [] →
          ((simulateUpdateExisting p tp ci now r1 r2).priceOptions
              = [p.currentPrice, p.currentPrice + (r1 : Int) + 1000,
                 p.currentPrice - (r2 : Int) - 500] ∧
            (simulateUpdateExisting p tp ci now r1 r2).priceDisplayOptions
              = (simulateUpdateExisting p tp ci now r1 r2).priceOptions.map fmtPrice)) := by
  intro url title tp ci now r r1 r2
  refine ⟨rfl, rfl, rfl, ?_⟩
  intro p hp
  have hempty : p.priceOptions.isEmpty = true := by
    rw [hp]
    rfl
  constructor <;> simp [simulateUpdateExisting, hempty]

/-- C3 witness: the fill of an existing record with empty options,
evaluated at a concrete record. -/
theorem simulated_price_options_three_witness :
    ((⟨"u", 100, "T", 9000, 3600, "a", "l", false, true, [], []⟩ : Product).priceOptions = []) ∧
      (simulateUpdateExisting
          (⟨"u", 100, "T", 9000, 3600, "a", "l", false, true, [], []⟩ : Product)
          200 7200 "n" 0 0).priceOptions
        = [9000, 10000, 8500] :=
  ⟨rfl,
   (((simulated_price_options_three "u" "T" 200 7200 "n" 0 0 0).2.2.2
       (⟨"u", 100, "T", 9000, 3600, "a", "l", false, true, [], []⟩ : Product) rfl).1).trans
     (by decide)⟩

/-- C9: the existing-product branch of `simulateProductInfo` updates only
`targetPrice`, `lastChecked` and `checkInterval` (and fills
`priceOptions`/`priceDisplayOptions` only when previously empty); the
stored `title`, `currentPrice`, `url` and `addedOn` are unchanged, and
the response echoes the stored title and current price. -/
theorem simulate_update_frame :
    ∀ (p : Product) (tp : Int) (ci : Nat) (now : String) (r1 r2 : Nat),
      ((simulateUpdateExisting p tp ci now r1 r2).title = p.title ∧
        (simulateUpdateExisting p tp ci now r1 r2).currentPrice = p.currentPrice ∧
        (simulateUpdateExisting p tp ci now r1 r2).url = p.url ∧
        (simulateUpdateExisting p tp ci now r1 r2).addedOn = p.addedOn ∧
        (simulateUpdateExisting p tp ci now r1 r2).priceConfirmed = p.priceConfirmed ∧
        (simulateUpdateExisting p tp ci now r1 r2).isSimulated = p.isSimulated) ∧
      ((simulateUpdateExisting p tp ci now r1 r2).targetPrice = tp ∧
        (simulateUpdateExisting p tp ci now r1 r2).lastChecked = now ∧
        (simulateUpdateExisting p tp ci now r1 r2).checkInterval = ci) ∧
      (p.priceOptions ≠ [] →
        (simulateUpdateExisting p tp ci now r1 r2).priceOptions = p.priceOptions ∧
        (simulateUpdateExisting p tp ci now r1 r2).priceDisplayOptions
          = p.priceDisplayOptions) ∧
      (∀ (products : List Product) (url productTitle : String) (r : Nat),
        products.find? (fun q => q.url == url) = some p →
          (simulateProductInfo products url productTitle tp ci now r r1 r2).2
            = .ok p.title p.currentPrice ci true true) := by
  intro p tp ci now r1 r2
  have htitle : (simulateUpdateExisting p tp ci now r1 r2).title = p.title := by
    cases h : p.priceOptions.isEmpty <;> simp [simulateUpdateExisting, h]
  have hprice : (simulateUpdateExisting p tp ci now r1 r2).currentPrice = p.currentPrice := by
    cases h : p.priceOptions.isEmpty <;> simp [simulateUpdateExisting, h]
  refine ⟨⟨htitle, hprice, ?_, ?_, ?_, ?_⟩, ⟨?_, ?_, ?_⟩, ?_, ?_⟩
  · cases h : p.priceOptions.isEmpty <;> simp [simulateUpdateExisting, h]
  · cases h : p.priceOptions.isEmpty <;> simp [simulateUpdateExisting, h]
  · cases h : p.priceOptions.isEmpty <;> simp [simulateUpdateExisting, h]
  · cases h : p.priceOptions.isEmpty <;> simp [simulateUpdateExisting, h]
  · cases h : p.priceOptions.isEmpty <;> simp [simulateUpdateExisting, h]
  · cases h : p.priceOptions.isEmpty <;> simp [simulateUpdateExisting, h]
  · cases h : p.priceOptions.isEmpty <;> simp [simulateUpdateExisting, h]
  · intro hne
    have h : p.priceOptions.isEmpty = false := by
      cases hp : p.priceOptions with
      | nil => exact absurd hp hne
      | cons a t => rfl
    constructor <;> simp [simulateUpdateExisting, h]
  · intro products url productTitle r hf
    unfold simulateProductInfo
    rw [hf]
    dsimp only
    rw [htitle, hprice]

/-- C9 witness: the frame and the response echo, evaluated at a concrete
stored record with non-empty options. -/
theorem simulate_update_frame_witness :
    ((⟨"https://x.com/p", 50, "T", 7000, 60, "a", "l", true, false,
        [7000], ["Rs. 7,000"]⟩ : Product).priceOptions ≠ []) ∧
      ((simulateUpdateExisting
          (⟨"https://x.com/p", 50, "T", 7000, 60, "a", "l", true, false,
            [7000], ["Rs. 7,000"]⟩ : Product) 99 120 "n" 1 2).priceOptions
        = [7000]) ∧
      ((simulateProductInfo
          [⟨"https://x.com/p", 50, "T", 7000, 60, "a", "l", true, false,
            [7000], ["Rs. 7,000"]⟩] "https://x.com/p" "t" 99 120 "n" 0 1 2).2
        = .ok "T" 7000 120 true true) :=
  ⟨by decide,
   ((simulate_update_frame
       (⟨"https://x.com/p", 50, "T", 7000, 60, "a", "l", true, false,
         [7000], ["Rs. 7,000"]⟩ : Product) 99 120 "n" 1 2).2.2.1 (by decide)).1,
   (simulate_update_frame
       (⟨"https://x.com/p", 50, "T", 7000, 60, "a", "l", true, false,
         [7000], ["Rs. 7,000"]⟩ : Product) 99 120 "n" 1 2).2.2.2
     [⟨"https://x.com/p", 50, "T", 7000, 60, "a", "l", true, false,
       [7000], ["Rs. 7,000"]⟩] "https://x.com/p" "t" 0 (by decide)⟩

/-! ## Claims about `addProduct`, notifications, and intervals -/

/-- C2 counterexample: with the monitoring server reachable but the
scrape reporting failure ("no price found"), `addProduct` responds with
a failed result, not a simulated success. -/
theorem add_product_failure_counterexample :
    (addProduct true (.apiFailure none) [] "https://www.amazon.in/dp/B0TESTURL1"
        "Amazon Product" 15000 86400 none none "2026-01-01T00:00:00.000Z" 0 0 0).isSuccess
      = false := by
  decide

/-- C2 amended: the simulated-success fallback applies exactly when the
monitoring server is unreachable — then `addProduct` always responds
`success: true` with `isSimulated: true`; when the server is reachable,
every failed scrape is surfaced as `success: false` carrying the thrown
error message. -/
theorem add_product_response_dispatch :
    (∀ (scrape : ScrapeResult) (products : List Product) (url productTitle : String)
        (tp : Int) (ci : Nat) (sp : Option Int) (st : Option String) (now : String)
        (r r1 r2 : Nat),
      (addProduct false scrape products url productTitle tp ci sp st now r r1 r2).isSuccess
          = true ∧
        (addProduct false scrape products url productTitle tp ci sp st now
            r r1 r2).simulatedFlag = true) ∧
    (∀ (scrape : ScrapeResult) (products : List Product) (url productTitle : String)
        (tp : Int) (ci : Nat) (sp : Option Int) (st : Option String) (now : String)
        (r r1 r2 : Nat),
      scrape.isOk = false →
        addProduct true scrape products url productTitle tp ci sp st now r r1 r2
          = .fail (scrapeErrorMessage scrape)) := by
  constructor
  · intro scrape products url productTitle tp ci sp st now r r1 r2
    unfold addProduct
    cases hf : products.find? (fun p => p.url == url) <;>
      simp [simulateProductInfo, hf, AddResponse.isSuccess, AddResponse.simulatedFlag]
  · intro scrape products url productTitle tp ci sp st now r r1 r2 h
    cases scrape <;> simp_all [addProduct, ScrapeResult.isOk]

/-- C2 witness: the failure branch evaluated at a concrete HTTP error. -/
theorem add_product_response_dispatch_witness :
    (ScrapeResult.httpError 503 "Service Unavailable").isOk = false ∧
      addProduct true (.httpError 503 "Service Unavailable") [] "u" "t" 100 86400
          none none "n" 0 0 0
        = .fail (scrapeErrorMessage (.httpError 503 "Service Unavailable")) :=
  ⟨by decide,
   add_product_response_dispatch.2 (.httpError 503 "Service Unavailable") [] "u" "t"
     100 86400 none none "n" 0 0 0 (by decide)⟩

/-- C8: with `priceConfirmed` false, neither the server-backed check
(`checkAllPrices`) nor the simulated check (`simulatePriceCheck`) emits a
browser notification or attempts an email, even when the current price is
at or below the target. -/
theorem notifications_gated_on_confirmation :
    ∀ (currentPrice targetPrice previousPrice : Rat)
      (hasLastNotified hasEmail coin : Bool),
      checkAllPricesNotify currentPrice targetPrice previousPrice false
          hasLastNotified hasEmail = ⟨false, false⟩ ∧
        (simulatePriceCheck targetPrice previousPrice coin false
            hasLastNotified hasEmail).2 = ⟨false, false⟩ := by
  intro currentPrice targetPrice previousPrice hasLastNotified hasEmail coin
  constructor
  · unfold checkAllPricesNotify
    split <;> simp
  · unfold simulatePriceCheck
    dsimp only
    split <;> simp

/-- C10: the check interval posted to the server's monitoring endpoint
by `setupServerMonitoring` is always at least 60 seconds, with 86400
substituted for a falsy interval; the popup handler rejects an explicit
interval below 60 and substitutes 86400 for an empty field. -/
theorem monitoring_interval_at_least_sixty :
    (∀ checkInterval : Option JSNum, 60 ≤ serverInterval checkInterval) ∧
    serverInterval (some .nan) = 86400 ∧
    serverInterval (some (.int 0)) = 86400 ∧
    serverInterval none = 86400 ∧
    (∀ (f : IntervalField) (n : Int), popupInterval f = .ok n → 60 ≤ n) ∧
    popupInterval .empty = .ok 86400 ∧
    (∀ n : Int, n < 60 → popupInterval (.int n)
      = .error "Check interval must be at least 60 seconds") := by
  refine ⟨?_, by decide, by decide, by decide, ?_, rfl, ?_⟩
  · intro checkInterval
    unfold serverInterval
    exact le_max_left _ _
  · intro f n h
    cases f with
    | empty =>
      simp [popupInterval] at h
      omega
    | nan => simp [popupInterval] at h
    | int m =>
      by_cases hm : m < 60
      · simp [popupInterval, hm] at h
      · simp [popupInterval, hm] at h
        omega
  · intro n hn
    simp [popupInterval, hn]

/-- C10 witness: an accepted explicit interval and a rejected short one. -/
theorem monitoring_interval_at_least_sixty_witness :
    (popupInterval (.int 3600) = .ok 3600 ∧ 60 ≤ (3600 : Int)) ∧
      ((59 : Int) < 60 ∧
        popupInterval (.int 59) = .error "Check interval must be at least 60 seconds") :=
  ⟨⟨rfl, monitoring_interval_at_least_sixty.2.2.2.2.1 (.int 3600) 3600 rfl⟩,
   ⟨by decide, monitoring_interval_at_least_sixty.2.2.2.2.2.2 59 (by decide)⟩⟩

end PriceDropAlert
